import Mathlib

/-
  Verification development for the PySyft core: the GammaTensor lazy
  computation graph (packages/syft/src/syft/core/tensor/autodp/gamma_tensor.py)
  and the worker object/command protocol (syft/workers/base.py).

  Python dictionaries are modelled as association lists with first-match
  lookup, overwrite-in-place insert and fold-based update, matching dict
  semantics (a dict built through insert never holds a duplicate key).
  The numeric tensor backend (jax/numpy) is external to the core per the
  spec; tensor values are modelled as integer scalars, and each backend
  operation is given a concrete integer interpretation.  None of the
  theorems below depend on the arithmetic meaning of those operations.
-/

namespace PySyft

/-- Lookup in a Python dict modelled as an association list (first match). -/
def dictLookup {α : Type} : List (Nat × α) → Nat → Option α
  | [], _ => none
  | kv :: rest, k => if kv.1 = k then some kv.2 else dictLookup rest k

/-- Insert into a Python dict: overwrite the existing entry in place,
otherwise append at the end, as CPython dicts preserve insertion order. -/
def dictInsert {α : Type} : List (Nat × α) → Nat → α → List (Nat × α)
  | [], k, v => [(k, v)]
  | kv :: rest, k, v =>
      if kv.1 = k then (k, v) :: rest else kv :: dictInsert rest k v

/-- Python dict.update(e) on d: every entry of e is inserted into d,
overwriting on key collision (last writer wins). -/
def sUpdate {α : Type} (d e : List (Nat × α)) : List (Nat × α) :=
  e.foldl (fun acc kv => dictInsert acc kv.1 kv.2) d

/-- Remove the first entry with the given key, if present. -/
def dictRemove {α : Type} : List (Nat × α) → Nat → List (Nat × α)
  | [], _ => []
  | kv :: rest, k => if kv.1 = k then rest else kv :: dictRemove rest k

/-- First-some choice on options, used to state lookup laws. -/
def oElse {α : Type} : Option α → Option α → Option α
  | some a, _ => some a
  | none, b => b

/-- Last-match lookup: the entry that survives a fold of inserts. -/
def lastLookup {α : Type} : List (Nat × α) → Nat → Option α
  | [], _ => none
  | kv :: rest, k =>
      oElse (lastLookup rest k) (if kv.1 = k then some kv.2 else none)

/-- No key occurs twice, which holds of every association list that
models an actual Python dict. -/
def nodupKeysB {α : Type} : List (Nat × α) → Bool
  | [] => true
  | kv :: rest => (dictLookup rest kv.1).isNone && nodupKeysB rest

/-- The binary operations dispatched by the GammaTensor dunder methods. -/
inductive BinOp where
  | add
  | sub
  | mul
  | matmul
  | truediv
  | modulo
  | gt
  | ge
  | lt
  | le
  | eqc
  | nec
deriving DecidableEq, Repr

/-- Integer-scalar interpretation of the external numeric backend ops
(jnp.add, jnp.subtract, jnp.multiply, jnp.matmul, jnp.true_divide,
jnp.mod, and the comparison kernels returning 0/1). -/
def evalOp : BinOp → Int → Int → Int
  | .add, a, b => a + b
  | .sub, a, b => a - b
  | .mul, a, b => a * b
  | .matmul, a, b => a * b
  | .truediv, a, b => a / b
  | .modulo, a, b => a % b
  | .gt, a, b => if a > b then 1 else 0
  | .ge, a, b => if a ≥ b then 1 else 0
  | .lt, a, b => if a < b then 1 else 0
  | .le, a, b => if a ≤ b then 1 else 0
  | .eqc, a, b => if a = b then 1 else 0
  | .nec, a, b => if a = b then 0 else 1

/-- Defunctionalised rebuild closures of GammaTensor.  In the source every
func is a lambda capturing the operand tensors and calling only their
reconstruct, i.e. only their own func; the constructors below record
exactly the rebuild functions those closures consult.
leaf is the rebuild of an input tensor: it reads the child of the entry
the state holds under its id, so replaying with a substituted stand-in
uses the stand-in data (modelled from the spec, as the input-tensor
construction lives outside the two source files).
binTT is the two-tensor branch of a dunder op, binTS the branch whose
second operand is an acceptable simple type, and filteredOf is the
wrapper lambda produced by GammaTensor.filtered. -/
inductive GTFunc where
  | leaf (i : Nat)
  | binTT (op : BinOp) (fa fb : GTFunc)
  | binTS (op : BinOp) (fa : GTFunc) (c : Int)
  | filteredOf (f : GTFunc)
deriving DecidableEq, Repr

/-- The GammaTensor dataclass: child (materialised value), func (rebuild
closure), sources (dict of contributing input tensors), is_linear
(False unless the constructing operation passes it), id (UID). -/
inductive GammaTensor where
  | mk (child : Int) (func : GTFunc) (sources : List (Nat × GammaTensor))
       (is_linear : Bool) (id : Nat)

namespace GammaTensor

def child : GammaTensor → Int
  | .mk c _ _ _ _ => c

def func : GammaTensor → GTFunc
  | .mk _ f _ _ _ => f

def sources : GammaTensor → List (Nat × GammaTensor)
  | .mk _ _ s _ _ => s

def is_linear : GammaTensor → Bool
  | .mk _ _ _ l _ => l

def uid : GammaTensor → Nat
  | .mk _ _ _ _ i => i

end GammaTensor

/-- A source state: dict from tensor id to contributing tensor, as held in
GammaTensor.sources and passed to reconstruct. -/
abbrev State := List (Nat × GammaTensor)

/-- Evaluation of a rebuild closure against a state.  A missing id in the
state is a Python KeyError, modelled as none. -/
def evalFunc : GTFunc → State → Option Int
  | .leaf i, s => (dictLookup s i).map GammaTensor.child
  | .binTT op fa fb, s =>
      (evalFunc fa s).bind fun va =>
        (evalFunc fb s).map fun vb => evalOp op va vb
  | .binTS op fa c, s => (evalFunc fa s).map fun va => evalOp op va c
  | .filteredOf f, s => evalFunc f s

/-- GammaTensor.reconstruct: run the rebuild closure on the given state. -/
def GammaTensor.reconstruct (t : GammaTensor) (s : State) : Option Int :=
  evalFunc t.func s

/-- GammaTensor.swap_state: a new tensor whose child is reconstruct(state),
whose sources is the given state, and whose func and is_linear are kept.
The fresh random UID of the new dataclass instance is a parameter. -/
def GammaTensor.swap_state (t : GammaTensor) (s : State) (nid : Nat) :
    Option GammaTensor :=
  (t.reconstruct s).map fun v => .mk v t.func s t.is_linear nid

/-- GammaTensor.filtered: zeroed child, a wrapper around the same rebuild,
a copy of the sources, default is_linear = False, fresh UID. -/
def GammaTensor.filtered (t : GammaTensor) (nid : Nat) : GammaTensor :=
  .mk 0 (.filteredOf t.func) t.sources false nid

/-- Modelled from the spec: construction of an input GammaTensor (done by
PhiTensor.gamma, outside the two source files).  Its sources dict maps its
own id to itself; the self reference is broken by giving the inner copy an
empty sources field, which reconstruct never reads. -/
def mkLeaf (i : Nat) (v : Int) (lin : Bool) : GammaTensor :=
  .mk v (.leaf i) [(i, .mk v (.leaf i) [] lin i)] lin i

/-- The is_linear flag the source gives the result of each two-tensor
dunder op: add and sub pass self.is_linear, truediv passes False
explicitly, every other op omits the field so the dataclass default False
applies. -/
def binOpIsLinear (op : BinOp) (selfLin : Bool) : Bool :=
  match op with
  | .add => selfLin
  | .sub => selfLin
  | _ => false

/-- The is_linear flag for the simple-type branch of each dunder op:
add and sub pass self.is_linear, truediv sets True explicitly, the rest
fall back to the dataclass default False. -/
def binOpScalarIsLinear (op : BinOp) (selfLin : Bool) : Bool :=
  match op with
  | .add => selfLin
  | .sub => selfLin
  | .truediv => true
  | _ => false

/-- The two-tensor branch common to the GammaTensor dunder ops:
child is the eager op on the two child values, sources is
self.sources.copy() updated with other.sources, func is the closure
combining the two reconstructs, and is_linear as per binOpIsLinear.
The fresh UID of the result is a parameter. -/
def applyBinOp (op : BinOp) (a b : GammaTensor) (nid : Nat) : GammaTensor :=
  .mk (evalOp op a.child b.child)
      (.binTT op a.func b.func)
      (sUpdate a.sources b.sources)
      (binOpIsLinear op a.is_linear)
      nid

/-- The simple-type branch of the GammaTensor dunder ops: sources is only
self.sources.copy(), the scalar operand is captured in the closure. -/
def applyBinOpScalar (op : BinOp) (a : GammaTensor) (c : Int) (nid : Nat) :
    GammaTensor :=
  .mk (evalOp op a.child c)
      (.binTS op a.func c)
      a.sources
      (binOpScalarIsLinear op a.is_linear)
      nid

/-- Replay fidelity of one tensor: its rebuild on its own sources yields
its materialised child. -/
abbrev Replay (t : GammaTensor) : Prop :=
  t.reconstruct t.sources = some t.child

/-- Child of the entry a state holds under a key; rebuild evaluation
depends on a state only through this. -/
def stChild (s : State) (k : Nat) : Option Int :=
  (dictLookup s k).map GammaTensor.child

/-- Boolean check that every entry of s is present in m with the same
child value. -/
def childSubB (s m : State) : Bool :=
  s.all fun kv => stChild m kv.1 == some kv.2.child

/-- A lazyrepeatarray of value bounds.  The numeric bound data is part of
the external tensor backend; the shape, which drives the broadcasting
checks, is tracked. -/
structure LRA where
  shape : List Nat
deriving DecidableEq, Repr

/-- Public dtypes carried by pointers: the default int dtype given to
python scalars, bool, and a stand-in for the remaining numpy dtypes. -/
inductive Dtype where
  | intDefault
  | boolType
  | otherType
deriving DecidableEq, Repr

/-- Numpy broadcasting on reversed shapes: dimensions align from the
right and must be equal or 1. -/
def bcastRev : List Nat → List Nat → Option (List Nat)
  | [], ys => some ys
  | xs, [] => some xs
  | x :: xs, y :: ys =>
      if x = y || x = 1 || y = 1 then
        (bcastRev xs ys).map fun r => max x y :: r
      else none

/-- Numpy broadcast of two shapes, none when incompatible. -/
def broadcastShape (s1 s2 : List Nat) : Option (List Nat) :=
  (bcastRev s1.reverse s2.reverse).map List.reverse

/-- Matmul shape rule for two-dimensional operands: (a,b) @ (b,d) = (a,d). -/
def matmulShape : List Nat → List Nat → Option (List Nat)
  | [a, b], [c, d] => if b = c then some [a, d] else none
  | _, _ => none

/-- The broadcasting rule of each operation: the matmul contraction rule
for matmul, elementwise numpy broadcast for every other binary op. -/
def opResultShape (op : BinOp) (s1 s2 : List Nat) : Option (List Nat) :=
  match op with
  | .matmul => matmulShape s1 s2
  | _ => broadcastShape s1 s2

/-- TensorWrappedGammaTensorPointer: the remote handle, carrying only the
owning client, the id at the remote location, and public metadata. -/
structure GTPointer where
  client : Nat
  id_at_location : Option Nat
  data_subjects : List Nat
  min_vals : LRA
  max_vals : LRA
  public_shape : Option (List Nat)
  public_dtype : Option Dtype
deriving DecidableEq, Repr

/-- The supported second operands of a pointer dunder op, per the
isinstance dispatch in _apply_tensor_op: another gamma pointer, a python
int or float scalar, a python bool, or a numpy array. -/
inductive Operand where
  | ptr (p : GTPointer)
  | intc (n : Int)
  | boolc (b : Bool)
  | arr (shape : List Nat) (dtype : Dtype)
deriving Repr

/-- Errors surfaced by pointer dispatch: the ShapeMismatch of incompatible
operand shapes, and the ValueError raised when a participating public
dtype is None while the dtypes differ. -/
inductive DispatchErr where
  | shapeMismatch
  | dtypeNone
deriving DecidableEq, Repr

/-- A RunClassMethodAction execute-command message as sent through
client.send_immediate_msg_without_reply: the operation, the destination
client and the id the result will live under. -/
structure Msg where
  op : BinOp
  clientOf : Nat
  resultId : Nat
deriving DecidableEq, Repr

/-- The bound shape compute_min_max sees for each operand kind: the
pointer carries its lazyrepeatarray bounds, a scalar broadcasts as a
single element, an array carries its own shape. -/
def operandBoundsShape : Operand → List Nat
  | .ptr p => p.min_vals.shape
  | .intc _ => [1]
  | .boolc _ => [1]
  | .arr sh _ => sh

/-- The other_shape and other_dtype branch of _apply_tensor_op, line for
line: pointer gives its public metadata, int and float scalars give shape
(1,) and the default int dtype, bool gives (1,) and bool, arrays give
their own shape and dtype. -/
def operandShapeDtype : Operand → Option (List Nat) × Option Dtype
  | .ptr p => (p.public_shape, p.public_dtype)
  | .intc _ => (some [1], some .intDefault)
  | .boolc _ => (some [1], some .boolType)
  | .arr sh dt => (some sh, some dt)

/-- Modelled from the spec: compute_min_max of lazy_repeat_array, which is
not among the source files.  Per the spec, ValueBounds are combined via
shape-inference rules matching the underlying operation broadcasting
semantics, so incompatible bound shapes surface a ShapeMismatch; the
numeric bound data itself belongs to the external backend. -/
def computeMinMax (minv maxv : LRA) (other : Operand) (op : BinOp) :
    Except DispatchErr (LRA × LRA) :=
  match opResultShape op minv.shape (operandBoundsShape other) with
  | none => .error .shapeMismatch
  | some sh =>
      let _ := maxv
      .ok (⟨sh⟩, ⟨sh⟩)

/-- Modelled from the spec: smpc.utils.get_shape, which is not among the
source files; it infers the result public shape with the operation
broadcasting rule, failing on incompatible shapes. -/
def get_shape (op : BinOp) (s1 s2 : List Nat) :
    Except DispatchErr (List Nat) :=
  match opResultShape op s1 s2 with
  | none => .error .shapeMismatch
  | some sh => .ok sh

/-- Modelled from the spec: smpc.utils.get_dtype, which is not among the
source files; comparisons produce bool, the other operations preserve the
self operand dtype. -/
def get_dtype (op : BinOp) (d1 d2 : Dtype) : Dtype :=
  match op with
  | .gt | .ge | .lt | .le | .eqc | .nec => .boolType
  | _ =>
      let _ := d2
      d1

/-- TensorWrappedGammaTensorPointer._apply_tensor_op, with the list of
execute-command messages it emits made explicit, in program order:
compute_min_max on the bounds first, then construction of the result
pointer (its fresh UID from the Pointer base is the freshId parameter),
then the RunClassMethodAction send, then shape and dtype inference for
the result metadata.  The client-side processing_pointers bookkeeping on
the last line of the source carries no registry state here. -/
def applyTensorOp (self : GTPointer) (other : Operand) (op : BinOp)
    (freshId : Nat) : List Msg × Except DispatchErr GTPointer :=
  match computeMinMax self.min_vals self.max_vals other op with
  | .error e => ([], .error e)
  | .ok (minv, maxv) =>
      let result : GTPointer :=
        { client := self.client
          id_at_location := some freshId
          data_subjects := self.data_subjects
          min_vals := minv
          max_vals := maxv
          public_shape := none
          public_dtype := none }
      let sent : List Msg := [⟨op, self.client, freshId⟩]
      let (otherShape, otherDtype) := operandShapeDtype other
      match self.public_shape, otherShape with
      | some ps, some os =>
          match get_shape op ps os with
          | .error e => (sent, .error e)
          | .ok rs =>
              if (self.public_dtype = none ∨ otherDtype = none) ∧
                  self.public_dtype ≠ otherDtype then
                (sent, .error .dtypeNone)
              else
                let rdtype : Option Dtype :=
                  match self.public_dtype, otherDtype with
                  | some d1, some d2 => some (get_dtype op d1 d2)
                  | _, _ => none
                (sent, .ok { result with
                              public_shape := some rs
                              public_dtype := rdtype })
      | _, _ =>
          if (self.public_dtype = none ∨ otherDtype = none) ∧
              self.public_dtype ≠ otherDtype then
            (sent, .error .dtypeNone)
          else
            let rdtype : Option Dtype :=
              match self.public_dtype, otherDtype with
              | some d1, some d2 => some (get_dtype op d1 d2)
              | _, _ => none
            (sent, .ok { result with
                          public_shape := none
                          public_dtype := rdtype })

/-- The MPCTensor outcome of a cross-party operation, external to the
core; only the participating parties are recorded. -/
structure MPCOut where
  parties : List Nat
deriving DecidableEq, Repr

/-- The ValueError raises of TensorWrappedGammaTensorPointer.concatenate:
a non-pointer operand, or two operands owned by the same client. -/
inductive ConcatErr where
  | notGammaPointer
  | sameClient
deriving DecidableEq, Repr

/-- TensorWrappedGammaTensorPointer.concatenate: non-pointer operands are
refused, two distinct clients go through secret sharing, and the same
client raises a ValueError. -/
def concatenate (self : GTPointer) (other : Operand) :
    Except ConcatErr MPCOut :=
  match other with
  | .ptr q =>
      if self.client ≠ q.client then .ok ⟨[self.client, q.client]⟩
      else .error .sameClient
  | _ => .error .notGammaPointer

/-- A stored object of the worker registry. -/
structure Obj where
  oid : Nat
  data : Int
deriving DecidableEq, Repr

/-- BaseWorker state relevant to the registry state machine: the object
store and the is_client_worker flag consulted by register_obj. -/
structure Worker where
  objects : List (Nat × Obj)
  is_client_worker : Bool
deriving DecidableEq, Repr

/-- The error outcomes of the worker message handlers: the KeyError of a
registry miss, the DisallowedCommand of command_guard, the KeyError of an
unknown function name, and the AttributeError of an unknown method. -/
inductive WorkerErr where
  | unknownObject
  | disallowedCommand
  | unknownFunction
  | unknownMethod
deriving DecidableEq, Repr

/-- BaseWorker.set_obj: store the object under its own id. -/
def setObj (w : Worker) (obj : Obj) : Worker :=
  { w with objects := dictInsert w.objects obj.oid obj }

/-- BaseWorker.get_obj: a registry lookup whose miss is a KeyError. -/
def getObj (w : Worker) (k : Nat) : Except WorkerErr Obj :=
  match dictLookup w.objects k with
  | none => .error .unknownObject
  | some o => .ok o

/-- BaseWorker.rm_obj: delete the key if present, no-op otherwise. -/
def rmObj (w : Worker) (k : Nat) : Worker :=
  if (dictLookup w.objects k).isSome then
    { w with objects := dictRemove w.objects k }
  else w

/-- BaseWorker.de_register_obj: remove the object under its id (the
object always carries an id here; the owner attribute is not registry
state). -/
def deRegisterObj (w : Worker) (obj : Obj) : Worker :=
  rmObj w obj.oid

/-- BaseWorker.respond_to_obj_req: look the object up, deregister it,
return it; the lookup failure propagates and leaves the registry alone. -/
def respondToObjReq (w : Worker) (k : Nat) :
    Worker × Except WorkerErr Obj :=
  match getObj w k with
  | .error e => (w, .error e)
  | .ok obj => (deRegisterObj w obj, .ok obj)

/-- BaseWorker.register_obj: stores the object unless this is a client
worker. -/
def registerObj (w : Worker) (obj : Obj) : Worker :=
  if w.is_client_worker then w else setObj w obj

/-- The pointer returned by execute_command, made by the external
create_pointer of the result tensor: only the remote id matters here. -/
structure ObjPointer where
  id_at_location : Nat
deriving DecidableEq, Repr

/-- An execute-command message: the command name, the optional self
object for method calls, and the already-resolved arguments. -/
structure CmdMsg where
  command : String
  selfObj : Option Obj
  args : List Int
deriving Repr

/-- BaseWorker.execute_command.  The method table models getattr on the
stored object and the function table models eval_torch_modules_functions;
both are external surfaces.  command_guard is modelled from the spec as
membership of the allow-list raising DisallowedCommand, and in the
source it guards only the function branch: a method call on a self
object dispatches through getattr with no guard at all, then registers
the result. -/
def executeCommand (methods : String → Option (Obj → List Int → Obj))
    (funcs : String → Option (List Int → Obj))
    (allowlist : List String) (w : Worker) (msg : CmdMsg) :
    Worker × Except WorkerErr ObjPointer :=
  match msg.selfObj with
  | some obj =>
      match methods msg.command with
      | none => (w, .error .unknownMethod)
      | some m =>
          let tensor := m obj msg.args
          (registerObj w tensor, .ok ⟨tensor.oid⟩)
  | none =>
      if msg.command ∈ allowlist then
        match funcs msg.command with
        | none => (w, .error .unknownFunction)
        | some f =>
            let tensor := f msg.args
            (registerObj w tensor, .ok ⟨tensor.oid⟩)
      else (w, .error .disallowedCommand)

/-- The budget-ledger capabilities publish consults, per data subject:
which subjects each source contributes, whether get_budget reports enough
remaining epsilon, and whether the deduct call succeeds. -/
structure PublishEnv where
  subjectsOf : Nat → List Nat
  budgetOk : Nat → Bool
  deductOk : Nat → Bool

/-- Modelled from the spec: a source is dropped when any of its data
subjects lacks budget. -/
def droppedSource (env : PublishEnv) (sid : Nat) : Bool :=
  (env.subjectsOf sid).any fun subj => !env.budgetOk subj

/-- Modelled from the spec: the reduced source state used for the
filtered replay, each dropped source replaced by its zeroed filtered
stand-in (GammaTensor.filtered from the source). -/
def retainedState (t : GammaTensor) (env : PublishEnv) : State :=
  t.sources.map fun kv =>
    if droppedSource env kv.1 then (kv.1, kv.2.filtered kv.1) else kv

/-- The data subjects that contributed through a retained source. -/
def retainedSubjects (t : GammaTensor) (env : PublishEnv) : List Nat :=
  ((t.sources.filter fun kv => !droppedSource env kv.1).flatMap fun kv =>
      env.subjectsOf kv.1).dedup

/-- Sequenced deduct calls, one per retained subject, aborting on the
first failure. -/
def deductAllSubjects (env : PublishEnv) : List Nat → Bool
  | [] => true
  | s :: rest => env.deductOk s && deductAllSubjects env rest

/-- Modelled from the spec: vectorized_publish, which is not among the
source files (GammaTensor.publish delegates to it).  private=false
returns the plain reconstruction; private=true replays over the reduced
state, then performs every retained subject deduction before the noised
value may be released, returning no value when the replay fails or any
deduct call fails.  The Gaussian noise sample is a parameter, since its
distribution belongs to the external backend. -/
def publishModel (t : GammaTensor) (env : PublishEnv) (noise : Int)
    (priv : Bool) : Option Int :=
  if !priv then t.reconstruct t.sources
  else
    match evalFunc t.func (retainedState t env) with
    | none => none
    | some v =>
        if deductAllSubjects env (retainedSubjects t env) then
          some (v + noise)
        else none

/-- GammaTensor.lipschitz_bound.  The gradient search (jax.grad composed
with the shgo global optimizer over the flattened source bounds) is an
external numeric capability, abstracted as the search argument returning
the optimal objective value; the source negates it.  A linear tensor
returns 1.0 before any of the search machinery is built. -/
def lipschitz_bound (t : GammaTensor) (search : State → ℚ) : ℚ :=
  if t.is_linear then 1 else -search t.sources

/-! Dictionary laws used by the claims. -/

theorem oElse_assoc {α : Type} (a b c : Option α) :
    oElse (oElse a b) c = oElse a (oElse b c) := by
  cases a <;> rfl

theorem oElse_none_right {α : Type} (a : Option α) : oElse a none = a := by
  cases a <;> rfl

theorem dictLookup_insert {α : Type} (d : List (Nat × α)) (k : Nat) (v : α)
    (j : Nat) :
    dictLookup (dictInsert d k v) j
      = if k = j then some v else dictLookup d j := by
  induction d with
  | nil => simp [dictInsert, dictLookup]
  | cons kv rest ih =>
      simp only [dictInsert]
      by_cases h : kv.1 = k
      · rw [if_pos h]
        simp only [dictLookup]
        by_cases hj : k = j
        · simp [hj]
        · have hkj : kv.1 ≠ j := by rw [h]; exact hj
          simp [hj, hkj]
      · rw [if_neg h]
        simp only [dictLookup, ih]
        by_cases hj : kv.1 = j
        · have hk : k ≠ j := fun e => h (hj.trans e.symm)
          simp [hj, hk]
        · simp [hj]

theorem dictLookup_sUpdate {α : Type} (e d : List (Nat × α)) (k : Nat) :
    dictLookup (sUpdate d e) k = oElse (lastLookup e k) (dictLookup d k) := by
  induction e generalizing d with
  | nil => simp [sUpdate, lastLookup, oElse]
  | cons kv e ih =>
      have h1 : sUpdate d (kv :: e) = sUpdate (dictInsert d kv.1 kv.2) e := rfl
      rw [h1, ih, dictLookup_insert]
      simp only [lastLookup]
      rw [oElse_assoc]
      congr 1
      by_cases h : kv.1 = k <;> simp [h, oElse]

theorem lastLookup_eq_dictLookup {α : Type} (e : List (Nat × α))
    (h : nodupKeysB e = true) (k : Nat) : lastLookup e k = dictLookup e k := by
  induction e with
  | nil => rfl
  | cons kv e ih =>
      simp only [nodupKeysB, Bool.and_eq_true] at h
      obtain ⟨h1, h2⟩ := h
      simp only [lastLookup, dictLookup, ih h2]
      by_cases hk : kv.1 = k
      · rw [if_pos hk, if_pos hk]
        have hnone : dictLookup e k = none := by
          rw [← hk]; exact Option.isNone_iff_eq_none.mp h1
        rw [hnone]; rfl
      · rw [if_neg hk, if_neg hk]
        exact oElse_none_right _

theorem dictLookup_sUpdate_nodup {α : Type} (d e : List (Nat × α))
    (h : nodupKeysB e = true) (k : Nat) :
    dictLookup (sUpdate d e) k = oElse (dictLookup e k) (dictLookup d k) := by
  rw [dictLookup_sUpdate, lastLookup_eq_dictLookup e h]

theorem nodupKeysB_insert {α : Type} (d : List (Nat × α)) (k : Nat) (v : α)
    (h : nodupKeysB d = true) : nodupKeysB (dictInsert d k v) = true := by
  induction d with
  | nil => simp [dictInsert, nodupKeysB, dictLookup]
  | cons kv rest ih =>
      simp only [nodupKeysB, Bool.and_eq_true] at h
      obtain ⟨h1, h2⟩ := h
      simp only [dictInsert]
      by_cases hk : kv.1 = k
      · rw [if_pos hk]
        simp only [nodupKeysB, Bool.and_eq_true]
        exact ⟨hk ▸ h1, h2⟩
      · rw [if_neg hk]
        simp only [nodupKeysB, Bool.and_eq_true]
        refine ⟨?_, ih h2⟩
        rw [dictLookup_insert, if_neg (fun e => hk e.symm)]
        exact h1

theorem dictLookup_remove_self {α : Type} (d : List (Nat × α))
    (h : nodupKeysB d = true) (k : Nat) :
    dictLookup (dictRemove d k) k = none := by
  induction d with
  | nil => rfl
  | cons kv rest ih =>
      simp only [nodupKeysB, Bool.and_eq_true] at h
      obtain ⟨h1, h2⟩ := h
      simp only [dictRemove]
      by_cases hk : kv.1 = k
      · rw [if_pos hk, ← hk]
        exact Option.isNone_iff_eq_none.mp h1
      · rw [if_neg hk]
        simp only [dictLookup]
        rw [if_neg hk]
        exact ih h2

/-! Rebuild evaluation laws. -/

@[simp] theorem GammaTensor.child_mk (c : Int) (f : GTFunc) (s : State)
    (l : Bool) (i : Nat) : (GammaTensor.mk c f s l i).child = c := rfl

@[simp] theorem GammaTensor.func_mk (c : Int) (f : GTFunc) (s : State)
    (l : Bool) (i : Nat) : (GammaTensor.mk c f s l i).func = f := rfl

@[simp] theorem GammaTensor.sources_mk (c : Int) (f : GTFunc) (s : State)
    (l : Bool) (i : Nat) : (GammaTensor.mk c f s l i).sources = s := rfl

@[simp] theorem GammaTensor.is_linear_mk (c : Int) (f : GTFunc) (s : State)
    (l : Bool) (i : Nat) : (GammaTensor.mk c f s l i).is_linear = l := rfl

@[simp] theorem GammaTensor.uid_mk (c : Int) (f : GTFunc) (s : State)
    (l : Bool) (i : Nat) : (GammaTensor.mk c f s l i).uid = i := rfl

theorem evalFunc_mono (f : GTFunc) (s m : State)
    (h : ∀ k v, dictLookup s k = some v →
        ∃ w, dictLookup m k = some w ∧ w.child = v.child) :
    ∀ v, evalFunc f s = some v → evalFunc f m = some v := by
  induction f with
  | leaf i =>
      intro v hv
      simp only [evalFunc, Option.map_eq_some'] at hv ⊢
      obtain ⟨t, ht, hc⟩ := hv
      obtain ⟨w, hw, hwc⟩ := h i t ht
      exact ⟨w, hw, by rw [hwc, hc]⟩
  | binTT op fa fb iha ihb =>
      intro v hv
      simp only [evalFunc] at hv ⊢
      rw [Option.bind_eq_some] at hv
      obtain ⟨va, hva, hrest⟩ := hv
      rw [Option.map_eq_some'] at hrest
      obtain ⟨vb, hvb, hev⟩ := hrest
      rw [iha va hva]
      simp only [Option.some_bind]
      rw [ihb vb hvb]
      simp [hev]
  | binTS op fa c ih =>
      intro v hv
      simp only [evalFunc, Option.map_eq_some'] at hv ⊢
      obtain ⟨va, hva, hev⟩ := hv
      exact ⟨va, ih va hva, hev⟩
  | filteredOf f ih =>
      exact ih

theorem childSubB_sound (s m : State) (h : childSubB s m = true) :
    ∀ k v, dictLookup s k = some v →
      ∃ w, dictLookup m k = some w ∧ w.child = v.child := by
  induction s with
  | nil => intro k v hv; simp [dictLookup] at hv
  | cons kv rest ih =>
      simp only [childSubB, List.all_cons, Bool.and_eq_true] at h
      obtain ⟨h1, h2⟩ := h
      intro k v hv
      simp only [dictLookup] at hv
      by_cases hk : kv.1 = k
      · rw [if_pos hk] at hv
        obtain rfl : kv.2 = v := Option.some.inj hv
        have h1e : stChild m kv.1 = some kv.2.child := eq_of_beq h1
        rw [hk] at h1e
        unfold stChild at h1e
        rw [Option.map_eq_some'] at h1e
        obtain ⟨w, hw, hwc⟩ := h1e
        exact ⟨w, hw, hwc⟩
      · rw [if_neg hk] at hv
        exact ih h2 k v hv

theorem sUpdate_right_sub (a b : State) (hnodup : nodupKeysB b = true) :
    ∀ k v, dictLookup b k = some v →
      ∃ w, dictLookup (sUpdate a b) k = some w ∧ w.child = v.child := by
  intro k v hv
  refine ⟨v, ?_, rfl⟩
  rw [dictLookup_sUpdate_nodup a b hnodup, hv]
  rfl

/-! The claims. -/

/-- C5: a GammaTensor produced by a tensor operation replays its rebuild
on its own sources map back to its materialised child, provided each
operand already satisfied the invariant and the source-map merge did not
collide destructively (each entry of the left operand survives into the
merged map with the same child; the right operand wins collisions by
construction).  Covers every two-tensor dunder op and every simple-type
dunder op of the embedding. -/
theorem C5_replay_fidelity (op : BinOp) (a b : GammaTensor) (c : Int)
    (n1 n2 : Nat) (ha : Replay a) (hb : Replay b)
    (hnodup : nodupKeysB b.sources = true)
    (hcompat : childSubB a.sources (sUpdate a.sources b.sources) = true) :
    Replay (applyBinOp op a b n1) ∧ Replay (applyBinOpScalar op a c n2) := by
  simp only [Replay, GammaTensor.reconstruct] at ha hb
  constructor
  · have hA : evalFunc a.func (sUpdate a.sources b.sources) = some a.child :=
      evalFunc_mono a.func a.sources _ (childSubB_sound _ _ hcompat) a.child ha
    have hB : evalFunc b.func (sUpdate a.sources b.sources) = some b.child :=
      evalFunc_mono b.func b.sources _ (sUpdate_right_sub _ _ hnodup) b.child hb
    simp [Replay, GammaTensor.reconstruct, applyBinOp, evalFunc, hA, hB]
  · simp [Replay, GammaTensor.reconstruct, applyBinOpScalar, evalFunc, ha]

/-- Witness for C5 at concrete inputs: two fresh input tensors with
distinct ids, combined by add, and an add with the scalar 2. -/
theorem C5_replay_fidelity_witness :
    Replay (applyBinOp .add (mkLeaf 0 3 true) (mkLeaf 1 4 false) 10)
    ∧ Replay (applyBinOpScalar .add (mkLeaf 0 3 true) 2 11) :=
  C5_replay_fidelity .add (mkLeaf 0 3 true) (mkLeaf 1 4 false) 2 10 11
    (by decide) (by decide) (by decide) (by decide)

/-- C6: the result of every two-tensor dunder op has as sources the dict
union of the operand source maps with the right operand winning every id
collision, and as child the eager backend op applied to the operand
children.  The right operand map carries no duplicate key, as every
Python dict. -/
theorem C6_sources_union (op : BinOp) (a b : GammaTensor) (nid k : Nat)
    (hnodup : nodupKeysB b.sources = true) :
    dictLookup (applyBinOp op a b nid).sources k
      = oElse (dictLookup b.sources k) (dictLookup a.sources k)
    ∧ (applyBinOp op a b nid).child = evalOp op a.child b.child := by
  constructor
  · simp only [applyBinOp, GammaTensor.sources]
    exact dictLookup_sUpdate_nodup _ _ hnodup k
  · rfl

/-- Witness for C6 at concrete inputs: matmul of two input tensors,
looked up at the id of the right operand. -/
theorem C6_sources_union_witness :
    dictLookup (applyBinOp .matmul (mkLeaf 0 3 true) (mkLeaf 1 4 false) 5).sources 1
      = oElse (dictLookup (mkLeaf 1 4 false).sources 1)
          (dictLookup (mkLeaf 0 3 true).sources 1)
    ∧ (applyBinOp .matmul (mkLeaf 0 3 true) (mkLeaf 1 4 false) 5).child
      = evalOp .matmul (mkLeaf 0 3 true).child (mkLeaf 1 4 false).child :=
  C6_sources_union .matmul (mkLeaf 0 3 true) (mkLeaf 1 4 false) 5 1 (by decide)

/-- C9: swap_state returns the tensor whose child is reconstruct(state),
whose sources is the given state and whose func and is_linear are
unchanged, and it is idempotent in value on a fixed state: swapping twice
yields the same child as swapping once. -/
theorem C9_swap_state (t : GammaTensor) (s : State) (v : Int) (n1 n2 : Nat)
    (h : t.reconstruct s = some v) :
    t.swap_state s n1 = some (.mk v t.func s t.is_linear n1)
    ∧ ((t.swap_state s n1).bind fun u => u.swap_state s n2).map
          GammaTensor.child
        = (t.swap_state s n1).map GammaTensor.child := by
  have h1 : t.swap_state s n1 = some (.mk v t.func s t.is_linear n1) := by
    simp [GammaTensor.swap_state, h]
  refine ⟨h1, ?_⟩
  rw [h1]
  simp only [GammaTensor.reconstruct] at h
  simp [GammaTensor.swap_state, GammaTensor.reconstruct, h]

/-- Witness for C9 at a concrete tensor and state: the state substitutes
an entry with child 7 under the leaf id. -/
theorem C9_swap_state_witness :
    (mkLeaf 0 3 true).swap_state [(0, .mk 7 (.leaf 0) [] true 0)] 1
      = some (.mk 7 (mkLeaf 0 3 true).func [(0, .mk 7 (.leaf 0) [] true 0)]
          (mkLeaf 0 3 true).is_linear 1)
    ∧ (((mkLeaf 0 3 true).swap_state [(0, .mk 7 (.leaf 0) [] true 0)] 1).bind
          fun u => u.swap_state [(0, .mk 7 (.leaf 0) [] true 0)] 2).map
            GammaTensor.child
        = ((mkLeaf 0 3 true).swap_state
            [(0, .mk 7 (.leaf 0) [] true 0)] 1).map GammaTensor.child :=
  C9_swap_state (mkLeaf 0 3 true) [(0, .mk 7 (.leaf 0) [] true 0)] 7 1 2
    (by decide)

/-- C4 counterexample: at concrete inputs, (a + b).is_linear is the left
operand flag alone, not the conjunction of both flags, and multiplying by
a plain scalar yields is_linear = False rather than the operand flag. -/
theorem C4_counterexample :
    (applyBinOp .add (mkLeaf 0 1 true) (mkLeaf 1 2 false) 5).is_linear = true
    ∧ ((mkLeaf 0 1 true).is_linear && (mkLeaf 1 2 false).is_linear) = false
    ∧ (applyBinOpScalar .mul (mkLeaf 0 1 true) 3 6).is_linear = false
    ∧ (mkLeaf 0 1 true).is_linear = true := by
  decide

/-- C4 amended: (a + b).is_linear equals a.is_linear (the left operand
flag; the right operand flag is ignored), (a * b).is_linear is False when
both operands are tensors, and (a * c).is_linear is also False for a
plain scalar c, since __mul__ never passes the flag. -/
theorem C4_linearity_amended (a b : GammaTensor) (c : Int) (n1 n2 n3 : Nat) :
    (applyBinOp .add a b n1).is_linear = a.is_linear
    ∧ (applyBinOp .mul a b n2).is_linear = false
    ∧ (applyBinOpScalar .mul a c n3).is_linear = false :=
  ⟨rfl, rfl, rfl⟩

/-- C8: on a linear tensor the computed sensitivity is exactly 1 whatever
the gradient search over the source bounds would report, and the search
is never consulted: the bound does not depend on the search capability at
all. -/
theorem C8_linear_sensitivity (t : GammaTensor) (g1 g2 : State → ℚ)
    (h : t.is_linear = true) :
    lipschitz_bound t g1 = 1
    ∧ lipschitz_bound t g1 = lipschitz_bound t g2 := by
  simp [lipschitz_bound, h]

/-- Witness for C8 at a concrete linear tensor and two search oracles
reporting different optima. -/
theorem C8_linear_sensitivity_witness :
    lipschitz_bound (mkLeaf 0 3 true) (fun _ => 5) = 1
    ∧ lipschitz_bound (mkLeaf 0 3 true) (fun _ => 5)
      = lipschitz_bound (mkLeaf 0 3 true) (fun _ => 7) :=
  C8_linear_sensitivity (mkLeaf 0 3 true) (fun _ => 5) (fun _ => 7) (by decide)

theorem deductAllSubjects_sound (env : PublishEnv) (l : List Nat)
    (h : deductAllSubjects env l = true) :
    ∀ s ∈ l, env.deductOk s = true := by
  induction l with
  | nil => intro s hs; simp at hs
  | cons x rest ih =>
      simp only [deductAllSubjects, Bool.and_eq_true] at h
      intro s hs
      rcases List.mem_cons.mp hs with h1 | h1
      · rw [h1]; exact h.1
      · exact ih h.2 s h1

/-- C1: whenever the private publish path returns a value, the ledger
deduction succeeded for every data subject that contributed through a
retained (not dropped) source; contrapositively a failing deduct call for
any retained subject means no value is released. -/
theorem C1_deduct_before_release (t : GammaTensor) (env : PublishEnv)
    (noise v : Int) (h : publishModel t env noise true = some v) :
    ∀ s, s ∈ retainedSubjects t env → env.deductOk s = true := by
  unfold publishModel at h
  simp only [Bool.not_true, Bool.false_eq_true, if_false] at h
  cases he : evalFunc t.func (retainedState t env) with
  | none => rw [he] at h; simp at h
  | some v0 =>
      rw [he] at h
      dsimp only at h
      by_cases hd : deductAllSubjects env (retainedSubjects t env) = true
      · exact deductAllSubjects_sound env _ hd
      · rw [if_neg hd] at h
        simp at h

/-- Witness for C1: a single input tensor with one data subject whose
budget suffices and whose deduction succeeds; publish releases a value
and the theorem recovers the successful deduction. -/
theorem C1_deduct_before_release_witness :
    PublishEnv.deductOk ⟨fun _ => [0], fun _ => true, fun _ => true⟩ 0
      = true :=
  C1_deduct_before_release (mkLeaf 0 5 true)
    ⟨fun _ => [0], fun _ => true, fun _ => true⟩ 0 5 (by decide) 0 (by decide)

/-- C2 counterexample: an execute-command message that invokes a method
on a held object bypasses the allow-list entirely; at this concrete
input the command name is outside the allow-list, yet the worker runs it,
registers the result, and answers with a pointer instead of raising
DisallowedCommand. -/
theorem C2_counterexample :
    ("evil_op" ∉ (["add"] : List String))
    ∧ (executeCommand
         (fun c => if c = "evil_op" then
            some (fun o _ => ⟨o.oid + 1, o.data⟩) else none)
         (fun _ => none) ["add"] ⟨[], false⟩
         ⟨"evil_op", some ⟨7, 3⟩, []⟩).2 = .ok ⟨8⟩
    ∧ (executeCommand
         (fun c => if c = "evil_op" then
            some (fun o _ => ⟨o.oid + 1, o.data⟩) else none)
         (fun _ => none) ["add"] ⟨[], false⟩
         ⟨"evil_op", some ⟨7, 3⟩, []⟩).1.objects = [(8, ⟨8, 3⟩)] := by
  refine ⟨by decide, rfl, rfl⟩

/-- C2 amended: only the free-function form of execute-command is guarded;
a function command outside the allow-list raises DisallowedCommand and
leaves the registry untouched, while method commands dispatch through
getattr with no allow-list check at all. -/
theorem C2_disallowed_function_command
    (methods : String → Option (Obj → List Int → Obj))
    (funcs : String → Option (List Int → Obj)) (allowlist : List String)
    (w : Worker) (cmd : String) (args : List Int)
    (h : cmd ∉ allowlist) :
    executeCommand methods funcs allowlist w ⟨cmd, none, args⟩
      = (w, .error .disallowedCommand) := by
  simp [executeCommand, h]

/-- Witness for the amended C2 at a concrete worker and command name
outside the allow-list. -/
theorem C2_disallowed_function_command_witness :
    executeCommand (fun _ => none) (fun _ => none) ["add"] ⟨[], false⟩
        ⟨"mm", none, []⟩
      = (⟨[], false⟩, .error .disallowedCommand) :=
  C2_disallowed_function_command (fun _ => none) (fun _ => none) ["add"]
    ⟨[], false⟩ "mm" [] (by decide)

/-- C7: storing an object and then serving a request for its id hands the
object out and deregisters it, so a second request for the same id fails
with the unknown-object lookup error.  The starting registry is a Python
dict, hence free of duplicate keys. -/
theorem C7_transfer_semantics (w : Worker) (v : Obj)
    (h : nodupKeysB w.objects = true) :
    (respondToObjReq (setObj w v) v.oid).2 = .ok v
    ∧ (respondToObjReq (respondToObjReq (setObj w v) v.oid).1 v.oid).2
        = .error .unknownObject := by
  have hlook : dictLookup (setObj w v).objects v.oid = some v := by
    simp [setObj, dictLookup_insert]
  constructor
  · simp [respondToObjReq, getObj, hlook]
  · have hstate : (respondToObjReq (setObj w v) v.oid).1
        = { setObj w v with
              objects := dictRemove (setObj w v).objects v.oid } := by
      simp [respondToObjReq, getObj, hlook, deRegisterObj, rmObj]
    rw [hstate]
    have h2 : dictLookup (dictRemove (setObj w v).objects v.oid) v.oid
        = none := by
      apply dictLookup_remove_self
      exact nodupKeysB_insert w.objects v.oid v h
    simp [respondToObjReq, getObj, h2]

/-- Witness for C7 at a concrete empty worker and object with id 7. -/
theorem C7_transfer_semantics_witness :
    (respondToObjReq (setObj ⟨[], false⟩ ⟨7, 42⟩) 7).2 = .ok ⟨7, 42⟩
    ∧ (respondToObjReq
          (respondToObjReq (setObj ⟨[], false⟩ ⟨7, 42⟩) 7).1 7).2
        = .error .unknownObject :=
  C7_transfer_semantics ⟨[], false⟩ ⟨7, 42⟩ (by decide)

/-- C10: concatenating two gamma pointers owned by the same client raises
the ValueError and produces no result, while two different clients go
through the secret-sharing path. -/
theorem C10_concatenate_same_client (p q : GTPointer) :
    (p.client = q.client →
        concatenate p (.ptr q) = .error .sameClient)
    ∧ (p.client ≠ q.client →
        concatenate p (.ptr q) = .ok ⟨[p.client, q.client]⟩) := by
  constructor <;> intro h <;> simp [concatenate, h]

/-- Witness for C10 at two concrete pointers owned by client 1. -/
theorem C10_concatenate_same_client_witness :
    concatenate ⟨1, some 2, [0], ⟨[2]⟩, ⟨[2]⟩, some [2], some .intDefault⟩
        (.ptr ⟨1, some 3, [1], ⟨[2]⟩, ⟨[2]⟩, some [2], some .intDefault⟩)
      = .error .sameClient :=
  (C10_concatenate_same_client
      ⟨1, some 2, [0], ⟨[2]⟩, ⟨[2]⟩, some [2], some .intDefault⟩
      ⟨1, some 3, [1], ⟨[2]⟩, ⟨[2]⟩, some [2], some .intDefault⟩).1 rfl

/-- C3: on a well-formed pointer pair (bounds shaped like the public
shape, dtypes known), an incompatible operand shape makes dispatch fail
with ShapeMismatch before any execute-command message leaves the client,
and a compatible pair sends exactly the one command and returns a handle
whose inferred public shape is the broadcast result of the operation. -/
theorem C3_dispatch_shape (self : GTPointer) (other : Operand) (op : BinOp)
    (fid : Nat) (ps os : List Nat) (d1 d2 : Dtype)
    (hps : self.public_shape = some ps)
    (hmv : self.min_vals.shape = ps)
    (hobs : operandBoundsShape other = os)
    (hosd : operandShapeDtype other = (some os, some d2))
    (hd : self.public_dtype = some d1) :
    (opResultShape op ps os = none →
        applyTensorOp self other op fid = ([], .error .shapeMismatch))
    ∧ (∀ rs, opResultShape op ps os = some rs →
        ∃ p, applyTensorOp self other op fid
              = ([⟨op, self.client, fid⟩], .ok p)
           ∧ p.public_shape = some rs) := by
  constructor
  · intro hnone
    unfold applyTensorOp computeMinMax
    rw [hmv, hobs, hnone]
  · intro rs hrs
    unfold applyTensorOp computeMinMax
    rw [hmv, hobs, hrs, hosd]
    simp only [hps, get_shape, hrs, hd]
    simp

/-- Witness for C3: matmul dispatch of public shapes (3,4) and (4,5)
sends one command and infers result shape (3,5). -/
theorem C3_dispatch_shape_witness :
    ∃ p, applyTensorOp
        ⟨0, some 11, [0], ⟨[3, 4]⟩, ⟨[3, 4]⟩, some [3, 4], some .intDefault⟩
        (.ptr ⟨0, some 12, [1], ⟨[4, 5]⟩, ⟨[4, 5]⟩, some [4, 5],
            some .intDefault⟩)
        .matmul 9
      = ([⟨.matmul, 0, 9⟩], .ok p) ∧ p.public_shape = some [3, 5] :=
  (C3_dispatch_shape
      ⟨0, some 11, [0], ⟨[3, 4]⟩, ⟨[3, 4]⟩, some [3, 4], some .intDefault⟩
      (.ptr ⟨0, some 12, [1], ⟨[4, 5]⟩, ⟨[4, 5]⟩, some [4, 5],
          some .intDefault⟩)
      .matmul 9 [3, 4] [4, 5] .intDefault .intDefault
      rfl rfl rfl rfl rfl).2 [3, 5] (by decide)

end PySyft
